import Mathlib

/-
Verification of the transaction-manager service (transaction-manager-service.rs).

The embedding translates the service's in-memory state and the operations the
specification talks about into pure Lean functions:

  - NonceData mirrors the Rust struct NonceData (current / pending / confirmed
    plus bookkeeping fields); the spec calls these next / pending_high_watermark
    / confirmed.
  - The DashMap shared maps become association lists with lookup / insert
    (in-place replace) / remove, each of which is atomic in the source
    (individual DashMap calls).
  - Timestamps (get_current_timestamp) become an explicit now : Nat parameter.
  - Network results (provider transaction counts, receipts, sign/broadcast
    outcomes) become explicit parameters or oracles, since the code only
    branches on their values.
  - Numeric strings of the source (gas_used and effective_gas_price formatted
    into Option String) are modelled as Option Nat; the numeric content is what
    the code computes.
  - Redis persistence of a transaction record (set_ex tx:...) is modelled by
    the redisTx map; published tx_events messages are modelled by the events
    list, in publication order.
-/

namespace TxManager

/-- Transaction status enum, from the Rust enum TxStatus. -/
inductive TxStatus where
  | Pending
  | Building
  | Signing
  | Submitted
  | Confirming
  | Confirmed
  | Failed
  | Replaced
  | Dropped
  | Cancelled
  | Timeout
  deriving DecidableEq

/-- Per-(chain, address) nonce record, from the Rust struct NonceData. -/
structure NonceData where
  current : Nat
  pending : Nat
  confirmed : Nat
  lastUpdated : Nat
  lastSynced : Nat
  address : String
  chainId : Nat
  deriving DecidableEq

/-- Gas parameters, from the Rust struct GasParams. -/
structure GasParams where
  gasLimit : String
  maxFeePerGas : Option String
  maxPriorityFeePerGas : Option String
  gasPrice : Option String
  txType : Nat
  deriving DecidableEq

/-- Lifecycle record of one transaction, from the Rust struct TxState. -/
structure TxState where
  txId : String
  txHash : Option String
  chainId : Nat
  chainName : String
  fromAddr : String
  toAddr : String
  value : String
  data : String
  nonce : Nat
  status : TxStatus
  submittedAt : Option Nat
  confirmedAt : Option Nat
  failedAt : Option Nat
  replacedAt : Option Nat
  cancelledAt : Option Nat
  droppedAt : Option Nat
  timeoutOccurredAt : Option Nat
  blockNumber : Option Nat
  gasUsed : Option Nat
  effectiveGasPrice : Option Nat
  gasParams : GasParams
  retryCount : Nat
  keyId : String
  timeoutAt : Nat
  confirmationTarget : Nat
  confirmationTime : Option Nat
  error : Option String
  replacedBy : Option String
  deriving DecidableEq

/-- Service-wide metrics, from the Rust struct Metrics. -/
structure Metrics where
  totalSubmitted : Nat
  totalConfirmed : Nat
  totalFailed : Nat
  totalReplaced : Nat
  totalDropped : Nat
  avgConfirmationTime : Nat
  startTime : Nat
  deriving DecidableEq

/-- Fields of the caller-supplied transaction JSON that the service reads. -/
structure TxInput where
  fromAddr : String
  toAddr : String
  value : String
  data : String
  nonce : Nat
  gasLimit : String
  maxFeePerGas : Option String
  maxPriorityFeePerGas : Option String
  gasPrice : Option String
  txType : Nat
  deriving DecidableEq

/-- Exhausted-retry failure record, from the Rust struct FailedTx. -/
structure FailedTx where
  txId : String
  chainId : Nat
  transaction : TxInput
  error : String
  attempts : Nat
  timestamp : Nat
  deriving DecidableEq

/-- Error enum, from the Rust enum ServiceError. -/
inductive ServiceErr where
  | Redis (msg : String)
  | Provider (msg : String)
  | Transaction (msg : String)
  | NotFound (msg : String)
  | InvalidRequest (msg : String)
  | TooManyPending
  | Other (msg : String)
  deriving DecidableEq

/-- Fields of the receipt that handle_receipt reads, from ethers
TransactionReceipt. The code treats status == Some(1) as success. -/
structure TransactionReceipt where
  status : Option Nat
  blockNumber : Option Nat
  gasUsed : Option Nat
  effectiveGasPrice : Option Nat
  deriving DecidableEq

/-- Message published on the tx_events channel. chainName is present only on
TX_SUBMITTED messages, matching the JSON the code builds. -/
structure TxEvent where
  event : String
  txId : String
  txHash : Option String
  chainId : Nat
  chainName : Option String
  timestamp : Nat
  deriving DecidableEq

/-- Configuration values read by the modelled operations, from struct Config. -/
structure Config where
  maxPendingTx : Nat
  txTimeout : Nat
  confirmationBlocks : Nat
  maxRetryAttempts : Nat
  deriving DecidableEq

/-- In-memory shared state of the service, from the Rust struct AppState.
redisTx models the Redis tx:tx_id records; events models the published
tx_events stream. -/
structure AppState where
  nonceTrackers : List (String × NonceData)
  pendingTxs : List (String × TxState)
  txHistory : List (String × TxState)
  failedTxs : List (String × FailedTx)
  redisTx : List (String × TxState)
  metrics : Metrics
  events : List TxEvent
  deriving DecidableEq

/-- Keyed lookup in an association list, modelling DashMap::get. -/
def lookupKey {α : Type} : List (String × α) → String → Option α
  | [], _ => none
  | (k, v) :: rest, key => if k = key then some v else lookupKey rest key

/-- Keyed insert-or-replace in an association list, modelling DashMap::insert
(and in-place mutation through get_mut, which has the same net effect). -/
def insertKey {α : Type} : List (String × α) → String → α → List (String × α)
  | [], key, v => [(key, v)]
  | (k, w) :: rest, key, v =>
      if k = key then (key, v) :: rest else (k, w) :: insertKey rest key v

/-- Keyed removal from an association list, modelling DashMap::remove. -/
def removeKey {α : Type} : List (String × α) → String → List (String × α)
  | [], _ => []
  | (k, v) :: rest, key =>
      if k = key then removeKey rest key else (k, v) :: removeKey rest key

theorem lookupKey_insertKey_self {α : Type} (m : List (String × α)) (k : String) (v : α) :
    lookupKey (insertKey m k v) k = some v := by
  induction m with
  | nil => simp [insertKey, lookupKey]
  | cons p rest ih =>
    obtain ⟨k1, v1⟩ := p
    by_cases h : k1 = k
    · simp [insertKey, h, lookupKey]
    · simp [insertKey, h, lookupKey, ih]

theorem lookupKey_insertKey_ne {α : Type} (m : List (String × α)) (k key : String) (v : α)
    (h : key ≠ k) : lookupKey (insertKey m k v) key = lookupKey m key := by
  have h2 : ¬ k = key := fun hh => h (Eq.symm hh)
  induction m with
  | nil => simp [insertKey, lookupKey, h2]
  | cons p rest ih =>
    obtain ⟨k1, v1⟩ := p
    by_cases hk : k1 = k
    · subst hk
      simp [insertKey, lookupKey, h2]
    · simp [insertKey, hk, lookupKey, ih]

theorem lookupKey_removeKey_self {α : Type} (m : List (String × α)) (k : String) :
    lookupKey (removeKey m k) k = none := by
  induction m with
  | nil => simp [removeKey, lookupKey]
  | cons p rest ih =>
    obtain ⟨k1, v1⟩ := p
    by_cases h : k1 = k
    · simp [removeKey, h, ih]
    · simp [removeKey, h, lookupKey, ih]

theorem length_insertKey_present {α : Type} (m : List (String × α)) (k : String) (v : α)
    (h : (lookupKey m k).isSome) : (insertKey m k v).length = m.length := by
  induction m with
  | nil => simp [lookupKey] at h
  | cons p rest ih =>
    obtain ⟨k1, v1⟩ := p
    by_cases hk : k1 = k
    · simp [insertKey, hk]
    · simp [lookupKey, hk] at h
      simp [insertKey, hk, ih h]

/-- Lowercasing of an address string, modelling str::to_lowercase of the
source (extensionally the same as String.toLower, written structurally so
that concrete instances evaluate inside the kernel). -/
def toLowerStr (s : String) : String :=
  String.mk (s.data.map Char.toLower)

/-- Map key used by the nonce tracker map, from
format of chain_id and lowercased address in get_nonce and friends. -/
def nonceKey (chainId : Nat) (address : String) : String :=
  toString chainId ++ ":" ++ toLowerStr address

/-- Chain display name, from the CHAIN_NAMES table and get_chain_name. -/
def get_chain_name (chainId : Nat) : String :=
  if chainId = 1 then "Ethereum"
  else if chainId = 56 then "BSC"
  else if chainId = 137 then "Polygon"
  else if chainId = 42161 then "Arbitrum"
  else if chainId = 10 then "Optimism"
  else if chainId = 43114 then "Avalanche"
  else if chainId = 8453 then "Base"
  else if chainId = 250 then "Fantom"
  else "Chain " ++ toString chainId

/-- Fresh nonce record, from the NonceData literal built in get_nonce when the
tracker map has no entry (and identically in reset_nonce). -/
def initNonceData (chainNonce now : Nat) (address : String) (chainId : Nat) : NonceData :=
  { current := chainNonce
    pending := chainNonce
    confirmed := chainNonce
    lastUpdated := now
    lastSynced := now
    address := toLowerStr address
    chainId := chainId }

/-- Increment branch of get_nonce: current += 1; pending = current;
last_updated = now. -/
def incrementNonceData (d : NonceData) (now : Nat) : NonceData :=
  { d with current := d.current + 1, pending := d.current + 1, lastUpdated := now }

/-- Record update performed by sync_nonce: confirmed = chain_nonce,
last_synced = now, then raise current and pending when the chain count
exceeds current. -/
def syncNonceData (d : NonceData) (chainNonce now : Nat) : NonceData :=
  let d1 := { d with confirmed := chainNonce, lastSynced := now }
  if chainNonce > d1.current then { d1 with current := chainNonce, pending := chainNonce }
  else d1

/-- Record update performed by the failure path of submit_transaction:
if current > 0 then current -= 1 and pending = current. -/
def releaseNonceData (d : NonceData) : NonceData :=
  if d.current > 0 then { d with current := d.current - 1, pending := d.current - 1 }
  else d

/-- Record update performed by handle_receipt on a success receipt:
confirmed = max confirmed (nonce + 1). -/
def confirmNonceData (d : NonceData) (nonce : Nat) : NonceData :=
  { d with confirmed := max d.confirmed (nonce + 1) }

/-- The specification invariant on a nonce record:
confirmed less-or-equal pending_high_watermark less-or-equal next, in the
fields of the source: confirmed, pending, current. -/
def NonceInv (d : NonceData) : Prop :=
  d.confirmed ≤ d.pending ∧ d.pending ≤ d.current

instance (d : NonceData) : Decidable (NonceInv d) := by
  unfold NonceInv
  infer_instance

/-- get_nonce from the source: look up the record (initializing it from the
chain-reported count on a miss), return current, and when increment is set
store the incremented record. chainNonce is the provider-reported count used
only on the miss path. -/
def get_nonce (s : AppState) (chainId : Nat) (address : String) (increment : Bool)
    (chainNonce now : Nat) : Nat × AppState :=
  let key := nonceKey chainId address
  let dAnds :=
    match lookupKey s.nonceTrackers key with
    | some d => (d, s)
    | none =>
        let d := initNonceData chainNonce now address chainId
        (d, { s with nonceTrackers := insertKey s.nonceTrackers key d })
  let d0 := dAnds.1
  let s0 := dAnds.2
  let nonce := d0.current
  if increment then
    (nonce, { s0 with nonceTrackers := insertKey s0.nonceTrackers key (incrementNonceData d0 now) })
  else (nonce, s0)

/-- reset_nonce from the source: overwrite the record with a fresh one built
from the chain-reported count and return that count. -/
def reset_nonce (s : AppState) (chainId : Nat) (address : String)
    (chainNonce now : Nat) : Nat × AppState :=
  let key := nonceKey chainId address
  (chainNonce,
   { s with nonceTrackers := insertKey s.nonceTrackers key (initNonceData chainNonce now address chainId) })

/-- sync_nonce from the source: when a record is tracked, apply syncNonceData;
always return the chain-reported count. -/
def sync_nonce (s : AppState) (chainId : Nat) (address : String)
    (chainNonce now : Nat) : Nat × AppState :=
  let key := nonceKey chainId address
  match lookupKey s.nonceTrackers key with
  | some d =>
      (chainNonce, { s with nonceTrackers := insertKey s.nonceTrackers key (syncNonceData d chainNonce now) })
  | none => (chainNonce, s)

/-- Failure path at the end of submit_transaction (after every attempt
errored): decrement the tracked nonce for the from address when positive,
bump total_failed, and record a FailedTx with attempts = max_retries + 1.
The released nonce (txn.nonce) is never consulted. -/
def submit_failure_path (s : AppState) (chainId : Nat) (txn : TxInput)
    (txId errMsg : String) (maxRetries now : Nat) : AppState :=
  let key := nonceKey chainId txn.fromAddr
  let trackers :=
    match lookupKey s.nonceTrackers key with
    | some d => insertKey s.nonceTrackers key (releaseNonceData d)
    | none => s.nonceTrackers
  { s with nonceTrackers := trackers
           metrics := { s.metrics with totalFailed := s.metrics.totalFailed + 1 }
           failedTxs := insertKey s.failedTxs txId
             { txId := txId, chainId := chainId, transaction := txn
               error := errMsg, attempts := maxRetries + 1, timestamp := now } }

instance {ε α : Type} [DecidableEq ε] [DecidableEq α] : DecidableEq (Except ε α) := by
  intro a b
  cases a with
  | ok x =>
      cases b with
      | ok y => exact if h : x = y then .isTrue (by rw [h]) else .isFalse (by intro hh; cases hh; exact h rfl)
      | error f => exact .isFalse (by intro hh; cases hh)
  | error e =>
      cases b with
      | ok y => exact .isFalse (by intro hh; cases hh)
      | error f => exact if h : e = f then .isTrue (by rw [h]) else .isFalse (by intro hh; cases hh; exact h rfl)

/-- Discriminator for Except results (Ok versus Err in the source). -/
def isOkE {ε α : Type} : Except ε α → Bool
  | .ok _ => true
  | .error _ => false

/-- Retry loop of submit_transaction, abstracted over the outcome of each
try_submit call (attemptRes k is the result of attempt k). remaining counts
the attempts still allowed after the current one, so the loop as a whole is
called with remaining = max_retries, mirroring for attempt in 0..=max_retries.
The break condition of the source is: stop when retry_on_failure is false or
attempt >= max_retries. Returns the surfaced result and the number of
attempts performed. -/
def submit_attempts_from (attemptRes : Nat → Except ServiceErr TxState)
    (retryOnFailure : Bool) : Nat → Nat → Except ServiceErr TxState × Nat
  | attempt, 0 =>
      (match attemptRes attempt with
       | .ok t => (.ok t, attempt + 1)
       | .error e => (.error e, attempt + 1))
  | attempt, r + 1 =>
      (match attemptRes attempt with
       | .ok t => (.ok t, attempt + 1)
       | .error e =>
           if retryOnFailure then
             submit_attempts_from attemptRes retryOnFailure (attempt + 1) r
           else (.error e, attempt + 1))

/-- The whole retry loop, starting at attempt 0 with max_retries budget. -/
def submit_attempts (attemptRes : Nat → Except ServiceErr TxState)
    (retryOnFailure : Bool) (maxRetries : Nat) : Except ServiceErr TxState × Nat :=
  submit_attempts_from attemptRes retryOnFailure 0 maxRetries

/-- Backpressure gate at the top of submit_tx_handler: reject with
TooManyPending when the pending map has reached max_pending_tx entries. -/
def submit_tx_gate (pendingCount maxPendingTx : Nat) : Except ServiceErr Unit :=
  if pendingCount ≥ maxPendingTx then .error .TooManyPending else .ok ()

/-- The TransactionRecord built by try_submit after a successful broadcast. -/
def mk_tx_state (chainId : Nat) (keyId : String) (txn : TxInput)
    (txId txHash : String) (attempt now : Nat) (cfg : Config) : TxState :=
  { txId := txId
    txHash := some txHash
    chainId := chainId
    chainName := get_chain_name chainId
    fromAddr := txn.fromAddr
    toAddr := txn.toAddr
    value := txn.value
    data := txn.data
    nonce := txn.nonce
    status := .Submitted
    submittedAt := some now
    confirmedAt := none
    failedAt := none
    replacedAt := none
    cancelledAt := none
    droppedAt := none
    timeoutOccurredAt := none
    blockNumber := none
    gasUsed := none
    effectiveGasPrice := none
    gasParams :=
      { gasLimit := txn.gasLimit
        maxFeePerGas := txn.maxFeePerGas
        maxPriorityFeePerGas := txn.maxPriorityFeePerGas
        gasPrice := txn.gasPrice
        txType := txn.txType }
    retryCount := attempt
    keyId := keyId
    timeoutAt := now + cfg.txTimeout
    confirmationTarget := cfg.confirmationBlocks
    confirmationTime := none
    error := none
    replacedBy := none }

/-- The TX_SUBMITTED message try_submit publishes on tx_events. -/
def mkSubmittedEvent (txId txHash : String) (chainId now : Nat) : TxEvent :=
  { event := "TX_SUBMITTED", txId := txId, txHash := some txHash
    chainId := chainId, chainName := some (get_chain_name chainId), timestamp := now }

/-- The TX_TIMEOUT message handle_timeout publishes on tx_events. -/
def mkTimeoutEvent (txId : String) (tx : TxState) (now : Nat) : TxEvent :=
  { event := "TX_TIMEOUT", txId := txId, txHash := tx.txHash
    chainId := tx.chainId, chainName := none, timestamp := now }

/-- State change of try_submit once signing and broadcast both succeeded:
store the new Submitted record in the pending map (by tx_id), in the history
map (by tx_hash) and in Redis, bump total_submitted, publish TX_SUBMITTED,
and return the record. -/
def try_submit_success (s : AppState) (chainId : Nat) (keyId : String) (txn : TxInput)
    (txId txHash : String) (attempt now : Nat) (cfg : Config) : AppState × TxState :=
  let t := mk_tx_state chainId keyId txn txId txHash attempt now cfg
  ({ s with pendingTxs := insertKey s.pendingTxs txId t
            txHistory := insertKey s.txHistory txHash t
            metrics := { s.metrics with totalSubmitted := s.metrics.totalSubmitted + 1 }
            redisTx := insertKey s.redisTx txId t
            events := s.events ++ [mkSubmittedEvent txId txHash chainId now] }, t)

/-- Confirmation latency computed by handle_receipt:
now minus submitted_at (defaulting submitted_at to now). -/
def confirmationTimeOf (tx : TxState) (now : Nat) : Nat :=
  now - tx.submittedAt.getD now

/-- Record update of handle_receipt on a success receipt. -/
def confirmedTx (tx : TxState) (r : TransactionReceipt) (now : Nat) : TxState :=
  { tx with status := .Confirmed
            confirmedAt := some now
            blockNumber := r.blockNumber
            gasUsed := some (r.gasUsed.getD 0)
            effectiveGasPrice := r.effectiveGasPrice
            confirmationTime := some (confirmationTimeOf tx now) }

/-- Record update of handle_receipt on a revert receipt. -/
def failedTx (tx : TxState) (now : Nat) : TxState :=
  { tx with status := .Failed, failedAt := some now, error := some "Transaction reverted" }

/-- Metrics update of handle_receipt on a success receipt: bump
total_confirmed and fold the latency into the running average with integer
division, exactly as the source writes it. -/
def update_metrics_confirmed (m : Metrics) (ct : Nat) : Metrics :=
  let total := m.totalConfirmed + 1
  { m with totalConfirmed := total
           avgConfirmationTime := (m.avgConfirmationTime * (total - 1) + ct) / total }

/-- Confirmed-watermark raise of handle_receipt on the nonce tracker map. -/
def raise_confirmed (trackers : List (String × NonceData)) (key : String) (nonce : Nat) :
    List (String × NonceData) :=
  match lookupKey trackers key with
  | some d => insertKey trackers key (confirmNonceData d nonce)
  | none => trackers

/-- Full state change of handle_receipt on a success receipt: update the
record, metrics and nonce watermark, persist the record to Redis, and remove
it from the pending map. The history map is not touched. -/
def receiptConfirmState (s : AppState) (txId : String) (tx : TxState)
    (r : TransactionReceipt) (now : Nat) : AppState :=
  { s with pendingTxs := removeKey s.pendingTxs txId
           redisTx := insertKey s.redisTx txId (confirmedTx tx r now)
           metrics := update_metrics_confirmed s.metrics (confirmationTimeOf tx now)
           nonceTrackers := raise_confirmed s.nonceTrackers (nonceKey tx.chainId tx.fromAddr) tx.nonce }

/-- Full state change of handle_receipt on a revert receipt. -/
def receiptFailState (s : AppState) (txId : String) (tx : TxState) (now : Nat) : AppState :=
  { s with pendingTxs := removeKey s.pendingTxs txId
           redisTx := insertKey s.redisTx txId (failedTx tx now)
           metrics := { s.metrics with totalFailed := s.metrics.totalFailed + 1 } }

/-- handle_receipt from the source. Publishes no event in either branch. -/
def handle_receipt (s : AppState) (txId : String) (r : TransactionReceipt)
    (now : Nat) : Except ServiceErr AppState :=
  match lookupKey s.pendingTxs txId with
  | none => .error (.NotFound ("Transaction " ++ txId ++ " not found"))
  | some tx =>
      if r.status = some 1 then .ok (receiptConfirmState s txId tx r now)
      else .ok (receiptFailState s txId tx now)

/-- Record update of handle_timeout: status Timeout, timeout_occurred_at. -/
def timeoutTx (tx : TxState) (now : Nat) : TxState :=
  { tx with status := .Timeout, timeoutOccurredAt := some now }

/-- Full state change of handle_timeout: update the record in place in the
pending map (which it never leaves) and publish TX_TIMEOUT. No nonce tracker
change, no metrics change, no removal. -/
def timeoutState (s : AppState) (txId : String) (tx : TxState) (now : Nat) : AppState :=
  { s with pendingTxs := insertKey s.pendingTxs txId (timeoutTx tx now)
           events := s.events ++ [mkTimeoutEvent txId tx now] }

/-- handle_timeout from the source. -/
def handle_timeout (s : AppState) (txId : String) (now : Nat) : Except ServiceErr AppState :=
  match lookupKey s.pendingTxs txId with
  | none => .error (.NotFound ("Transaction " ++ txId ++ " not found"))
  | some tx => .ok (timeoutState s txId tx now)

/-- Decision taken by one iteration of the monitor_transaction loop. -/
inductive MonitorAction where
  | timeout
  | receipt (r : TransactionReceipt)
  | keepPolling
  deriving DecidableEq

/-- How a monitor run ended. -/
inductive MonitorOutcome where
  | timedOut
  | gotReceipt
  | stillPolling
  deriving DecidableEq

/-- One iteration of the monitor_transaction loop: the timeout check comes
first (now > timeout_at), then the receipt poll; Ok(None) and Err both
continue polling. receiptResult: none models Err, some none models Ok(None),
some (some r) models Ok(Some r). -/
def monitor_step (timeoutAt now : Nat)
    (receiptResult : Option (Option TransactionReceipt)) : MonitorAction :=
  if now > timeoutAt then .timeout
  else
    match receiptResult with
    | some (some r) => .receipt r
    | _ => .keepPolling

/-- The monitor_transaction loop over a finite schedule of polls, each a pair
of the current time and the receipt query result. The loop returns right
after handle_timeout or handle_receipt, so at most one terminal transition is
ever applied. -/
def monitor_run (s : AppState) (txId : String) (timeoutAt : Nat) :
    List (Nat × Option (Option TransactionReceipt)) →
    Except ServiceErr (AppState × MonitorOutcome)
  | [] => .ok (s, .stillPolling)
  | (now, rr) :: rest =>
      match monitor_step timeoutAt now rr with
      | .timeout =>
          (match handle_timeout s txId now with
           | .ok s2 => .ok (s2, .timedOut)
           | .error e => .error e)
      | .receipt r =>
          (match handle_receipt s txId r now with
           | .ok s2 => .ok (s2, .gotReceipt)
           | .error e => .error e)
      | .keepPolling => monitor_run s txId timeoutAt rest

/-- Progress of one in-flight get_nonce(increment = true) call. The source
performs two separate atomic map operations: DashMap::get (followed by a
clone, dropping the guard) and DashMap::insert of the incremented clone. The
snapshot taken by the first step is what the second step builds on. -/
inductive AllocPhase where
  | start
  | haveSnapshot (d : NonceData)
  | finished (ret : Nat)
  deriving DecidableEq

/-- One atomic step of an in-flight allocation: from start, take the snapshot
(the map read of get_nonce); from haveSnapshot, write back the incremented
snapshot and return the snapshot current (the map insert of get_nonce). -/
def alloc_step (m : List (String × NonceData)) (key : String) (now : Nat) :
    AllocPhase → List (String × NonceData) × AllocPhase
  | .start =>
      (match lookupKey m key with
       | some d => (m, .haveSnapshot d)
       | none => (m, .start))
  | .haveSnapshot d =>
      (insertKey m key (incrementNonceData d now), .finished d.current)
  | .finished r => (m, .finished r)

/-- Two concurrent allocations (tasks a and b) over the shared tracker map. -/
structure AllocRace where
  map : List (String × NonceData)
  a : AllocPhase
  b : AllocPhase
  deriving DecidableEq

/-- Run one step of the chosen task (false picks a, true picks b). -/
def race_step (key : String) (now : Nat) (s : AllocRace) (pickB : Bool) : AllocRace :=
  if pickB then
    let mp := alloc_step s.map key now s.b
    { s with map := mp.1, b := mp.2 }
  else
    let mp := alloc_step s.map key now s.a
    { s with map := mp.1, a := mp.2 }

/-- Run the two tasks under an explicit interleaving schedule. -/
def run_race (key : String) (now : Nat) (s : AllocRace) : List Bool → AllocRace
  | [] => s
  | c :: rest => run_race key now (race_step key now s c) rest

/-- A receipt with success status, as handle_receipt recognizes it. -/
def okReceipt : TransactionReceipt :=
  { status := some 1, blockNumber := some 100, gasUsed := some 21000, effectiveGasPrice := some 7 }

/-- Apply handle_receipt with a success receipt for each listed (tx_id, now)
pair in order, propagating the state. -/
def confirm_seq (s : AppState) : List (String × Nat) → Except ServiceErr AppState
  | [] => .ok s
  | (txId, now) :: rest =>
      match handle_receipt s txId okReceipt now with
      | .ok s2 => confirm_seq s2 rest
      | .error e => .error e

/-- Stored running-average confirmation time after a sequence of successful
receipts. -/
def avg_after (s : AppState) (steps : List (String × Nat)) : Option Nat :=
  match confirm_seq s steps with
  | .ok s2 => some s2.metrics.avgConfirmationTime
  | .error _ => none

/-- Recorded confirmation latency of one transaction after a sequence of
successful receipts, read back from the persisted record. -/
def ct_after (s : AppState) (steps : List (String × Nat)) (txId : String) : Option Nat :=
  match confirm_seq s steps with
  | .ok s2 =>
      (match lookupKey s2.redisTx txId with
       | some t => t.confirmationTime
       | none => none)
  | .error _ => none

/-- Concrete address fixture. -/
def addrA : String := "0xaa"

/-- Tracker key of addrA on chain 1. -/
def kA : String := nonceKey 1 addrA

/-- Fresh record initialized from chain count 5, as get_nonce builds it. -/
def dInit5 : NonceData := initNonceData 5 0 addrA 1

/-- Tracker record with two allocations outstanding. -/
def d664 : NonceData :=
  { current := 6, pending := 6, confirmed := 4, lastUpdated := 0, lastSynced := 0
    address := addrA, chainId := 1 }

/-- Tracker record with confirmed at 8 and current at 10. -/
def d1086 : NonceData :=
  { current := 10, pending := 10, confirmed := 8, lastUpdated := 0, lastSynced := 0
    address := addrA, chainId := 1 }

/-- Tracker record with current at 7. -/
def d733 : NonceData :=
  { current := 7, pending := 7, confirmed := 3, lastUpdated := 0, lastSynced := 0
    address := addrA, chainId := 1 }

/-- Legacy gas parameters fixture. -/
def gasP0 : GasParams :=
  { gasLimit := "21000", maxFeePerGas := none, maxPriorityFeePerGas := none
    gasPrice := some "10000000000", txType := 0 }

/-- Caller transaction fixture carrying nonce 5 from addrA. -/
def txn5 : TxInput :=
  { fromAddr := addrA, toAddr := "0xbb", value := "0", data := "0x", nonce := 5
    gasLimit := "21000", maxFeePerGas := none, maxPriorityFeePerGas := none
    gasPrice := some "10000000000", txType := 0 }

/-- Zeroed metrics, as built at service start. -/
def metrics0 : Metrics :=
  { totalSubmitted := 0, totalConfirmed := 0, totalFailed := 0, totalReplaced := 0
    totalDropped := 0, avgConfirmationTime := 0, startTime := 0 }

/-- A Submitted record as try_submit stores it, with nonce 5 and
submitted_at 10. -/
def txS : TxState :=
  { txId := "t1", txHash := some "0xh", chainId := 1, chainName := "Ethereum"
    fromAddr := addrA, toAddr := "0xbb", value := "0", data := "0x", nonce := 5
    status := .Submitted, submittedAt := some 10, confirmedAt := none, failedAt := none
    replacedAt := none, cancelledAt := none, droppedAt := none, timeoutOccurredAt := none
    blockNumber := none, gasUsed := none, effectiveGasPrice := none, gasParams := gasP0
    retryCount := 0, keyId := "k1", timeoutAt := 300, confirmationTarget := 1
    confirmationTime := none, error := none, replacedBy := none }

/-- App state with one monitored Submitted transaction, mirrored in the
history map under its hash, and one tracked nonce record. -/
def s8 : AppState :=
  { nonceTrackers := [(kA, d664)], pendingTxs := [("t1", txS)]
    txHistory := [("0xh", txS)], failedTxs := [], redisTx := []
    metrics := metrics0, events := [] }

/-- App state fixture whose only content is the tracker record d1086. -/
def sNonce : AppState :=
  { nonceTrackers := [(kA, d1086)], pendingTxs := [], txHistory := [], failedTxs := []
    redisTx := [], metrics := metrics0, events := [] }

/-- App state fixture whose only content is the tracker record d733. -/
def sC3 : AppState :=
  { nonceTrackers := [(kA, d733)], pendingTxs := [], txHistory := [], failedTxs := []
    redisTx := [], metrics := metrics0, events := [] }

/-- Caller transaction fixture carrying nonce 6 from addrA. -/
def txn6 : TxInput := { txn5 with nonce := 6 }

/-- Initial configuration of the two-allocation interleaving: one tracked
record at current 5, both calls not yet started. -/
def raceStart : AllocRace := { map := [(kA, dInit5)], a := .start, b := .start }

/-- C1 counterexample: the claim says every ledger operation preserves
confirmed less-or-equal pending less-or-equal next and in particular never
lowers next below confirmed. At the reachable record dInit5 (fresh record
initialized from chain count 5, all three fields 5), the exhausted-retry
release operation decrements current to 4 while confirmed stays 5, lowering
next below confirmed and breaking the invariant. -/
theorem C1_cex :
    NonceInv dInit5 ∧
    ¬ NonceInv (releaseNonceData dInit5) ∧
    (releaseNonceData dInit5).current < dInit5.confirmed := by decide

/-- C1 amended: initialization, allocation, reset and reconciliation preserve
the invariant confirmed less-or-equal pending less-or-equal next (on records
with pending = current, which every operation maintains); the exhausted-retry
release preserves it only when confirmed is strictly below next, and the
confirmed-watermark raise on confirmation preserves it only when the
confirmed nonce is below next. -/
theorem C1_amended_thm (d : NonceData) (c nonce now : Nat) (addr : String) (cid : Nat)
    (hInv : NonceInv d) (hpc : d.pending = d.current) :
    NonceInv (initNonceData c now addr cid) ∧
    NonceInv (incrementNonceData d now) ∧
    NonceInv (syncNonceData d c now) ∧
    (d.confirmed < d.current → NonceInv (releaseNonceData d)) ∧
    (nonce + 1 ≤ d.current → NonceInv (confirmNonceData d nonce)) := by
  obtain ⟨h1, h2⟩ := hInv
  refine ⟨?_, ?_, ?_, ?_, ?_⟩
  · simp [NonceInv, initNonceData]
  · simp only [NonceInv, incrementNonceData]
    omega
  · simp only [NonceInv, syncNonceData]
    by_cases hc : c > d.current
    · simp [hc]
    · simp [hc]
      omega
  · intro hlt
    have hpos : d.current > 0 := by omega
    simp only [NonceInv, releaseNonceData, if_pos hpos]
    omega
  · intro hle
    simp only [NonceInv, confirmNonceData]
    omega

/-- C1 witness: the amended theorem applied at the concrete record d664. -/
theorem C1_amended_w :
    NonceInv d664 ∧ d664.pending = d664.current ∧
    (NonceInv (initNonceData 3 7 addrA 1) ∧
     NonceInv (incrementNonceData d664 7) ∧
     NonceInv (syncNonceData d664 3 7) ∧
     (d664.confirmed < d664.current → NonceInv (releaseNonceData d664)) ∧
     (2 + 1 ≤ d664.current → NonceInv (confirmNonceData d664 2))) :=
  ⟨by decide, by decide, C1_amended_thm d664 3 2 7 addrA 1 (by decide) (by decide)⟩

/-- C2 counterexample: the claim says reconcile sets confirmed to
max(confirmed, chain_count) and never decreases confirmed. At the record
d1086 (confirmed 8) with chain count 6, sync_nonce writes confirmed = 6,
strictly below both the old confirmed and max(confirmed, chain_count). -/
theorem C2_cex :
    d1086.confirmed = 8 ∧
    (syncNonceData d1086 6 50).confirmed = 6 ∧
    (syncNonceData d1086 6 50).confirmed < d1086.confirmed ∧
    max d1086.confirmed 6 = 8 := by decide

/-- C2 amended: for a tracked record, reconcile returns the chain count, sets
confirmed to the chain count unconditionally (so confirmed can decrease),
raises next and pending to the chain count exactly when it exceeds next, and
never decreases next. -/
theorem C2_amended_thm (s : AppState) (chainId : Nat) (address : String)
    (chainNonce now : Nat) (d : NonceData)
    (h : lookupKey s.nonceTrackers (nonceKey chainId address) = some d) :
    (sync_nonce s chainId address chainNonce now).1 = chainNonce ∧
    lookupKey (sync_nonce s chainId address chainNonce now).2.nonceTrackers
      (nonceKey chainId address) = some (syncNonceData d chainNonce now) ∧
    (syncNonceData d chainNonce now).confirmed = chainNonce ∧
    (syncNonceData d chainNonce now).current = max d.current chainNonce ∧
    d.current ≤ (syncNonceData d chainNonce now).current ∧
    (d.current < chainNonce → (syncNonceData d chainNonce now).pending = chainNonce) ∧
    (chainNonce ≤ d.current →
      (syncNonceData d chainNonce now).pending = d.pending ∧
      (syncNonceData d chainNonce now).current = d.current) := by
  refine ⟨?_, ?_, ?_, ?_, ?_, ?_, ?_⟩
  · simp [sync_nonce, h]
  · simp [sync_nonce, h, lookupKey_insertKey_self]
  · simp only [syncNonceData]
    by_cases hc : chainNonce > d.current <;> simp [hc]
  · simp only [syncNonceData]
    by_cases hc : chainNonce > d.current
    · simp [hc]
      omega
    · simp [hc]
      omega
  · simp only [syncNonceData]
    by_cases hc : chainNonce > d.current
    · simp [hc]
      omega
    · simp [hc]
  · intro hlt
    simp only [syncNonceData]
    have hc : chainNonce > d.current := hlt
    simp [hc]
  · intro hle
    have hc : ¬ chainNonce > d.current := by omega
    simp [syncNonceData, hc]

/-- C2 witness: the amended theorem applied at the concrete state sNonce with
chain count 6 against tracked record d1086. -/
theorem C2_amended_w :
    ((sync_nonce sNonce 1 addrA 6 50).1 = 6 ∧
     lookupKey (sync_nonce sNonce 1 addrA 6 50).2.nonceTrackers (nonceKey 1 addrA)
       = some (syncNonceData d1086 6 50) ∧
     (syncNonceData d1086 6 50).confirmed = 6 ∧
     (syncNonceData d1086 6 50).current = max d1086.current 6 ∧
     d1086.current ≤ (syncNonceData d1086 6 50).current ∧
     (d1086.current < 6 → (syncNonceData d1086 6 50).pending = 6) ∧
     (6 ≤ d1086.current →
       (syncNonceData d1086 6 50).pending = d1086.pending ∧
       (syncNonceData d1086 6 50).current = d1086.current)) :=
  C2_amended_thm sNonce 1 addrA 6 50 d1086 (by decide)

/-- C3 counterexample: the claim says next is decremented exactly when the
released nonce equals next - 1 and left unchanged otherwise. In the state
sC3 the tracked record has current 7, and the failed transaction txn5
released nonce 5, which is not 7 - 1; yet the failure path decrements
current to 6. -/
theorem C3_cex :
    txn5.nonce ≠ d733.current - 1 ∧
    lookupKey (submit_failure_path sC3 1 txn5 "txf" "Signing failed" 3 100).nonceTrackers kA
      = some { d733 with current := 6, pending := 6 } := by decide

/-- C3 amended: when a submission exhausts its retry budget, the tracked
record for (chain, from) is updated by releaseNonceData, which decrements
next by exactly one whenever next is positive, irrespective of the nonce
carried by the failed transaction (two failed transactions differing only in
payload, in particular in nonce, produce the same tracker update), and
total_failed is incremented. -/
theorem C3_amended_thm (s : AppState) (chainId : Nat) (txn txn2 : TxInput)
    (txId errMsg : String) (maxRetries now : Nat) (d : NonceData)
    (h : lookupKey s.nonceTrackers (nonceKey chainId txn.fromAddr) = some d)
    (hfrom : txn2.fromAddr = txn.fromAddr) :
    lookupKey (submit_failure_path s chainId txn txId errMsg maxRetries now).nonceTrackers
      (nonceKey chainId txn.fromAddr) = some (releaseNonceData d) ∧
    (releaseNonceData d).current = d.current - 1 ∧
    (releaseNonceData d).confirmed = d.confirmed ∧
    (submit_failure_path s chainId txn2 txId errMsg maxRetries now).nonceTrackers
      = (submit_failure_path s chainId txn txId errMsg maxRetries now).nonceTrackers ∧
    (submit_failure_path s chainId txn txId errMsg maxRetries now).metrics.totalFailed
      = s.metrics.totalFailed + 1 := by
  refine ⟨?_, ?_, ?_, ?_, ?_⟩
  · simp [submit_failure_path, h, lookupKey_insertKey_self]
  · simp only [releaseNonceData]
    by_cases hp : d.current > 0
    · simp [hp]
    · simp [hp]
      omega
  · simp only [releaseNonceData]
    by_cases hp : d.current > 0 <;> simp [hp]
  · simp [submit_failure_path, hfrom]
  · simp [submit_failure_path]

/-- C3 witness: the amended theorem applied at the state sC3 with failed
transactions txn5 and txn6. -/
theorem C3_amended_w :
    (lookupKey (submit_failure_path sC3 1 txn5 "txf" "Signing failed" 3 100).nonceTrackers
       (nonceKey 1 txn5.fromAddr) = some (releaseNonceData d733) ∧
     (releaseNonceData d733).current = d733.current - 1 ∧
     (releaseNonceData d733).confirmed = d733.confirmed ∧
     (submit_failure_path sC3 1 txn6 "txf" "Signing failed" 3 100).nonceTrackers
       = (submit_failure_path sC3 1 txn5 "txf" "Signing failed" 3 100).nonceTrackers ∧
     (submit_failure_path sC3 1 txn5 "txf" "Signing failed" 3 100).metrics.totalFailed
       = sC3.metrics.totalFailed + 1) :=
  C3_amended_thm sC3 1 txn5 txn6 "txf" "Signing failed" 3 100 d733 (by decide) (by decide)

/-- C4: the claim says allocation is a single atomic read-modify-write, so
concurrent allocations return distinct consecutive nonces. get_nonce performs
the map read and the map insert as two separate atomic operations; under the
interleaving read-a, read-b, write-a, write-b starting from current 5, both
calls return nonce 5 (a duplicate) and one increment is lost (the map ends at
current 6), whereas the serialized schedule returns 5 then 6. -/
theorem C4_race_eval :
    (run_race kA 100 raceStart [false, true, false, true]).a = .finished 5 ∧
    (run_race kA 100 raceStart [false, true, false, true]).b = .finished 5 ∧
    lookupKey (run_race kA 100 raceStart [false, true, false, true]).map kA
      = some (incrementNonceData dInit5 100) ∧
    (run_race kA 100 raceStart [false, false, true, true]).a = .finished 5 ∧
    (run_race kA 100 raceStart [false, false, true, true]).b = .finished 6 := by decide

/-- Attempt oracle: the chain rejects the signed payload at broadcast on the
first attempt (the error string try_submit builds for a rejected
send_raw_transaction), and the second attempt succeeds. -/
def rejectThenOk : Nat → Except ServiceErr TxState :=
  fun k => if k = 0 then .error (.Provider "Broadcast failed: nonce too low") else .ok txS

/-- Attempt oracle: every attempt is rejected at broadcast. -/
def alwaysReject : Nat → Except ServiceErr TxState :=
  fun _ => .error (.Provider "Broadcast failed: nonce too low")

theorem submit_attempts_from_all_fail (attemptRes : Nat → Except ServiceErr TxState)
    (hfail : ∀ k, isOkE (attemptRes k) = false) :
    ∀ remaining attempt,
      isOkE (submit_attempts_from attemptRes true attempt remaining).1 = false ∧
      (submit_attempts_from attemptRes true attempt remaining).2 = attempt + remaining + 1 := by
  intro remaining
  induction remaining with
  | zero =>
    intro attempt
    have h := hfail attempt
    cases hres : attemptRes attempt with
    | ok t =>
      rw [hres] at h
      simp [isOkE] at h
    | error e =>
      simp [submit_attempts_from, hres, isOkE]
  | succ r ih =>
    intro attempt
    have h := hfail attempt
    cases hres : attemptRes attempt with
    | ok t =>
      rw [hres] at h
      simp [isOkE] at h
    | error e =>
      have hr := ih (attempt + 1)
      have hstep : submit_attempts_from attemptRes true attempt (r + 1)
          = submit_attempts_from attemptRes true (attempt + 1) r := by
        simp [submit_attempts_from, hres]
      rw [hstep]
      exact ⟨hr.1, by rw [hr.2]; omega⟩

/-- C5 counterexample: the claim says a BroadcastRejected outcome is surfaced
as a terminal failure and not retried with the same nonce. With a broadcast
rejection on attempt 0 and budget 3, the retry loop of submit_transaction
performs a second attempt on the same fixed transaction (the nonce is part of
the descriptor and is not rebuilt between attempts) and returns its success:
two attempts were made, so the rejection was retried, not surfaced. -/
theorem C5_cex :
    rejectThenOk 0 = .error (.Provider "Broadcast failed: nonce too low") ∧
    submit_attempts rejectThenOk true 3 = (.ok txS, 2) := by decide

/-- C5 amended: every attempt error, broadcast rejections included, is
treated alike: with retry_on_failure set, the loop keeps retrying the same
descriptor until the budget max_retries is exhausted, performing exactly
max_retries + 1 attempts, and only then surfaces a terminal failure. -/
theorem C5_amended_thm (attemptRes : Nat → Except ServiceErr TxState) (maxRetries : Nat)
    (hfail : ∀ k, isOkE (attemptRes k) = false) :
    isOkE (submit_attempts attemptRes true maxRetries).1 = false ∧
    (submit_attempts attemptRes true maxRetries).2 = maxRetries + 1 := by
  have h := submit_attempts_from_all_fail attemptRes hfail maxRetries 0
  simpa [submit_attempts] using h

/-- C5 witness: the amended theorem applied to the all-rejections oracle with
budget 3. -/
theorem C5_amended_w :
    isOkE (submit_attempts alwaysReject true 3).1 = false ∧
    (submit_attempts alwaysReject true 3).2 = 3 + 1 :=
  C5_amended_thm alwaysReject 3 (fun _ => rfl)

/-- C6 counterexample: the claim says every monitor completion, by receipt or
by timeout, removes its record from the pending set so the count drops below
the ceiling and submissions are accepted again. In state s8 (one pending
transaction, ceiling 1) the gate rejects; after the monitor completes by
timeout, the record is still in the pending map (with status Timeout), the
count is unchanged, and the gate still rejects. -/
theorem C6_cex :
    submit_tx_gate s8.pendingTxs.length 1 = .error .TooManyPending ∧
    handle_timeout s8 "t1" 400 = .ok (timeoutState s8 "t1" txS 400) ∧
    lookupKey (timeoutState s8 "t1" txS 400).pendingTxs "t1" = some (timeoutTx txS 400) ∧
    (timeoutState s8 "t1" txS 400).pendingTxs.length = s8.pendingTxs.length ∧
    submit_tx_gate (timeoutState s8 "t1" txS 400).pendingTxs.length 1
      = .error .TooManyPending := by decide

/-- C6 amended: a new submission is rejected with TooManyPending exactly when
the pending-map size has reached the configured ceiling; a monitor that
completes by receipt removes its record from the pending map (in either
receipt branch), while a monitor that completes by timeout leaves its record
in the pending map, so timeouts never lower the pending count. -/
theorem C6_amended_thm (s : AppState) (maxPendingTx : Nat) (txId : String) (tx : TxState)
    (r : TransactionReceipt) (now : Nat)
    (h : lookupKey s.pendingTxs txId = some tx) :
    (submit_tx_gate s.pendingTxs.length maxPendingTx = .error .TooManyPending ↔
       maxPendingTx ≤ s.pendingTxs.length) ∧
    (handle_receipt s txId r now = .ok (receiptConfirmState s txId tx r now) ∨
     handle_receipt s txId r now = .ok (receiptFailState s txId tx now)) ∧
    lookupKey (receiptConfirmState s txId tx r now).pendingTxs txId = none ∧
    lookupKey (receiptFailState s txId tx now).pendingTxs txId = none ∧
    handle_timeout s txId now = .ok (timeoutState s txId tx now) ∧
    lookupKey (timeoutState s txId tx now).pendingTxs txId = some (timeoutTx tx now) ∧
    (timeoutState s txId tx now).pendingTxs.length = s.pendingTxs.length := by
  refine ⟨?_, ?_, ?_, ?_, ?_, ?_, ?_⟩
  · constructor
    · intro hg
      by_contra hlt
      simp [submit_tx_gate, Nat.not_le.mp hlt] at hg
    · intro hge
      simp [submit_tx_gate, hge]
  · by_cases hr : r.status = some 1
    · left
      simp [handle_receipt, h, hr]
    · right
      simp [handle_receipt, h, hr]
  · simp [receiptConfirmState, lookupKey_removeKey_self]
  · simp [receiptFailState, lookupKey_removeKey_self]
  · simp [handle_timeout, h]
  · simp [timeoutState, lookupKey_insertKey_self]
  · simp only [timeoutState]
    exact length_insertKey_present s.pendingTxs txId (timeoutTx tx now) (by simp [h])

/-- C6 witness: the amended theorem applied at state s8 with ceiling 1. -/
theorem C6_amended_w :
    ((submit_tx_gate s8.pendingTxs.length 1 = .error .TooManyPending ↔
        1 ≤ s8.pendingTxs.length) ∧
     (handle_receipt s8 "t1" okReceipt 50 = .ok (receiptConfirmState s8 "t1" txS okReceipt 50) ∨
      handle_receipt s8 "t1" okReceipt 50 = .ok (receiptFailState s8 "t1" txS 50)) ∧
     lookupKey (receiptConfirmState s8 "t1" txS okReceipt 50).pendingTxs "t1" = none ∧
     lookupKey (receiptFailState s8 "t1" txS 50).pendingTxs "t1" = none ∧
     handle_timeout s8 "t1" 50 = .ok (timeoutState s8 "t1" txS 50) ∧
     lookupKey (timeoutState s8 "t1" txS 50).pendingTxs "t1" = some (timeoutTx txS 50) ∧
     (timeoutState s8 "t1" txS 50).pendingTxs.length = s8.pendingTxs.length) :=
  C6_amended_thm s8 1 "t1" txS okReceipt 50 (by decide)

/-- C7: on a poll where the deadline has passed (now strictly greater than
timeout_at), the monitor takes the timeout action before even looking at the
receipt poll, the record transitions to Timeout (not Failed) in place with
timed_out_at (timeout_occurred_at in the source) recorded, one TX_TIMEOUT
event is published, the run stops regardless of any remaining polls, and the
nonce trackers are untouched. -/
theorem C7_timeout_thm (s : AppState) (txId : String) (tx : TxState) (tAt now : Nat)
    (rr : Option (Option TransactionReceipt))
    (polls : List (Nat × Option (Option TransactionReceipt)))
    (h : lookupKey s.pendingTxs txId = some tx) (hlate : tAt < now) :
    monitor_step tAt now rr = .timeout ∧
    monitor_run s txId tAt ((now, rr) :: polls) = .ok (timeoutState s txId tx now, .timedOut) ∧
    lookupKey (timeoutState s txId tx now).pendingTxs txId = some (timeoutTx tx now) ∧
    (timeoutTx tx now).status = .Timeout ∧
    (timeoutTx tx now).status ≠ .Failed ∧
    (timeoutTx tx now).timeoutOccurredAt = some now ∧
    (timeoutState s txId tx now).events = s.events ++ [mkTimeoutEvent txId tx now] ∧
    (mkTimeoutEvent txId tx now).event = "TX_TIMEOUT" ∧
    (timeoutState s txId tx now).nonceTrackers = s.nonceTrackers := by
  have hstep : monitor_step tAt now rr = .timeout := by
    simp [monitor_step, hlate]
  refine ⟨hstep, ?_, ?_, ?_, ?_, ?_, ?_, ?_, ?_⟩
  · simp only [monitor_run, hstep]
    simp [handle_timeout, h]
  · simp [timeoutState, lookupKey_insertKey_self]
  · simp [timeoutTx]
  · simp [timeoutTx]
  · simp [timeoutTx]
  · simp [timeoutState]
  · simp [mkTimeoutEvent]
  · simp [timeoutState]

/-- C7 witness: the theorem applied at state s8 (deadline 300) on a poll at
time 301 with two further polls scheduled. -/
theorem C7_timeout_w :
    monitor_step 300 301 (some none) = .timeout ∧
    monitor_run s8 "t1" 300 [(301, some none), (304, some (some okReceipt)), (307, none)]
      = .ok (timeoutState s8 "t1" txS 301, .timedOut) ∧
    lookupKey (timeoutState s8 "t1" txS 301).pendingTxs "t1" = some (timeoutTx txS 301) ∧
    (timeoutTx txS 301).status = .Timeout ∧
    (timeoutTx txS 301).status ≠ .Failed ∧
    (timeoutTx txS 301).timeoutOccurredAt = some 301 ∧
    (timeoutState s8 "t1" txS 301).events = s8.events ++ [mkTimeoutEvent "t1" txS 301] ∧
    (mkTimeoutEvent "t1" txS 301).event = "TX_TIMEOUT" ∧
    (timeoutState s8 "t1" txS 301).nonceTrackers = s8.nonceTrackers :=
  C7_timeout_thm s8 "t1" txS 300 301 (some none)
    [(304, some (some okReceipt)), (307, none)] (by decide) (by decide)

/-- Second Submitted record, submitted at 20 with nonce 6. -/
def txSb : TxState :=
  { txS with txId := "t2", txHash := some "0xh2", submittedAt := some 20, nonce := 6 }

/-- Third Submitted record, submitted at 30 with nonce 7. -/
def txSc : TxState :=
  { txS with txId := "t3", txHash := some "0xh3", submittedAt := some 30, nonce := 7 }

/-- App state with three monitored Submitted transactions and no tracked
nonce record. -/
def s10 : AppState :=
  { nonceTrackers := [], pendingTxs := [("t1", txS), ("t2", txSb), ("t3", txSc)]
    txHistory := [], failedTxs := [], redisTx := [], metrics := metrics0, events := [] }

/-- C8 counterexample: the claim says a record that reaches a terminal state
is moved to history storage. In state s8 the history map holds the
Submitted-status copy stored at broadcast time under the hash; after the
monitor confirms the transaction, the history map is unchanged: it still
holds the Submitted copy and never receives the terminal Confirmed record. -/
theorem C8_cex :
    handle_receipt s8 "t1" okReceipt 50 = .ok (receiptConfirmState s8 "t1" txS okReceipt 50) ∧
    (confirmedTx txS okReceipt 50).status = TxStatus.Confirmed ∧
    txS.status = TxStatus.Submitted ∧
    (receiptConfirmState s8 "t1" txS okReceipt 50).txHistory = [("0xh", txS)] ∧
    lookupKey (receiptConfirmState s8 "t1" txS okReceipt 50).txHistory "0xh"
      ≠ some (confirmedTx txS okReceipt 50) := by decide

/-- C8 amended: a Submitted record reaches exactly one terminal state per
monitor completion, with mutually exclusive terminal timestamps (the
confirmed, failed and timed-out branches each set only their own timestamp),
and once terminal its fields never change again: the owning monitor applies
at most one terminal transition and stops, its result independent of every
remaining scheduled poll, and after a receipt completion the only mutators of
a record (handle_receipt and handle_timeout) answer NotFound for it, since it
left the pending map. A receipt removes the final record from the pending map
and persists it to Redis, a timeout leaves it in the pending map under its
stopped monitor; in no branch is the history map updated: it keeps the
Submitted-status copy stored at broadcast. -/
theorem C8_amended_thm (s : AppState) (txId : String) (tx : TxState)
    (r r2 : TransactionReceipt) (now now2 tAt nowT : Nat)
    (rr : Option (Option TransactionReceipt))
    (polls pollsT : List (Nat × Option (Option TransactionReceipt)))
    (h : lookupKey s.pendingTxs txId = some tx)
    (hc0 : tx.confirmedAt = none) (hf0 : tx.failedAt = none)
    (ht0 : tx.timeoutOccurredAt = none)
    (hrcpt : rr = some (some r)) (hontime : ¬ now > tAt) (hlate : tAt < nowT) :
    (handle_receipt s txId r now = .ok (receiptConfirmState s txId tx r now) ∨
     handle_receipt s txId r now = .ok (receiptFailState s txId tx now)) ∧
    (confirmedTx tx r now).status = .Confirmed ∧
    (confirmedTx tx r now).confirmedAt = some now ∧
    (confirmedTx tx r now).failedAt = none ∧
    (confirmedTx tx r now).timeoutOccurredAt = none ∧
    (failedTx tx now).status = .Failed ∧
    (failedTx tx now).failedAt = some now ∧
    (failedTx tx now).confirmedAt = none ∧
    (failedTx tx now).timeoutOccurredAt = none ∧
    (timeoutTx tx now).status = .Timeout ∧
    (timeoutTx tx now).timeoutOccurredAt = some now ∧
    (timeoutTx tx now).confirmedAt = none ∧
    (timeoutTx tx now).failedAt = none ∧
    lookupKey (receiptConfirmState s txId tx r now).pendingTxs txId = none ∧
    lookupKey (receiptConfirmState s txId tx r now).redisTx txId = some (confirmedTx tx r now) ∧
    (receiptConfirmState s txId tx r now).txHistory = s.txHistory ∧
    lookupKey (receiptFailState s txId tx now).pendingTxs txId = none ∧
    lookupKey (receiptFailState s txId tx now).redisTx txId = some (failedTx tx now) ∧
    (receiptFailState s txId tx now).txHistory = s.txHistory ∧
    (timeoutState s txId tx now).txHistory = s.txHistory ∧
    monitor_step tAt now rr = .receipt r ∧
    (monitor_run s txId tAt ((now, rr) :: polls)
       = .ok (receiptConfirmState s txId tx r now, .gotReceipt) ∨
     monitor_run s txId tAt ((now, rr) :: polls)
       = .ok (receiptFailState s txId tx now, .gotReceipt)) ∧
    monitor_run s txId tAt ((nowT, rr) :: pollsT)
      = .ok (timeoutState s txId tx nowT, .timedOut) ∧
    handle_receipt (receiptConfirmState s txId tx r now) txId r2 now2
      = .error (.NotFound ("Transaction " ++ txId ++ " not found")) ∧
    handle_timeout (receiptConfirmState s txId tx r now) txId now2
      = .error (.NotFound ("Transaction " ++ txId ++ " not found")) ∧
    handle_receipt (receiptFailState s txId tx now) txId r2 now2
      = .error (.NotFound ("Transaction " ++ txId ++ " not found")) ∧
    handle_timeout (receiptFailState s txId tx now) txId now2
      = .error (.NotFound ("Transaction " ++ txId ++ " not found")) := by
  have hstepR : monitor_step tAt now rr = .receipt r := by
    simp [monitor_step, hontime, hrcpt]
  have hstepT : monitor_step tAt nowT rr = .timeout := by
    simp [monitor_step, hlate]
  refine ⟨?_, ?_, ?_, ?_, ?_, ?_, ?_, ?_, ?_, ?_, ?_, ?_, ?_, ?_, ?_, ?_, ?_, ?_, ?_, ?_,
          hstepR, ?_, ?_, ?_, ?_, ?_, ?_⟩
  · by_cases hr : r.status = some 1
    · left
      simp [handle_receipt, h, hr]
    · right
      simp [handle_receipt, h, hr]
  · simp [confirmedTx]
  · simp [confirmedTx]
  · simp [confirmedTx, hf0]
  · simp [confirmedTx, ht0]
  · simp [failedTx]
  · simp [failedTx]
  · simp [failedTx, hc0]
  · simp [failedTx, ht0]
  · simp [timeoutTx]
  · simp [timeoutTx]
  · simp [timeoutTx, hc0]
  · simp [timeoutTx, hf0]
  · simp [receiptConfirmState, lookupKey_removeKey_self]
  · simp [receiptConfirmState, lookupKey_insertKey_self]
  · simp [receiptConfirmState]
  · simp [receiptFailState, lookupKey_removeKey_self]
  · simp [receiptFailState, lookupKey_insertKey_self]
  · simp [receiptFailState]
  · simp [timeoutState]
  · by_cases hr : r.status = some 1
    · left
      simp only [monitor_run, hstepR]
      simp [handle_receipt, h, hr]
    · right
      simp only [monitor_run, hstepR]
      simp [handle_receipt, h, hr]
  · simp only [monitor_run, hstepT]
    simp [handle_timeout, h]
  · simp [handle_receipt, receiptConfirmState, lookupKey_removeKey_self]
  · simp [handle_timeout, receiptConfirmState, lookupKey_removeKey_self]
  · simp [handle_receipt, receiptFailState, lookupKey_removeKey_self]
  · simp [handle_timeout, receiptFailState, lookupKey_removeKey_self]

/-- C8 witness: the amended theorem applied at state s8, with a receipt poll
at time 50 against deadline 300 (followed by a further scheduled poll that is
discarded) and a timeout poll at time 301 (likewise followed by a discarded
poll). -/
theorem C8_amended_w :
    ((handle_receipt s8 "t1" okReceipt 50 = .ok (receiptConfirmState s8 "t1" txS okReceipt 50) ∨
      handle_receipt s8 "t1" okReceipt 50 = .ok (receiptFailState s8 "t1" txS 50)) ∧
     (confirmedTx txS okReceipt 50).status = .Confirmed ∧
     (confirmedTx txS okReceipt 50).confirmedAt = some 50 ∧
     (confirmedTx txS okReceipt 50).failedAt = none ∧
     (confirmedTx txS okReceipt 50).timeoutOccurredAt = none ∧
     (failedTx txS 50).status = .Failed ∧
     (failedTx txS 50).failedAt = some 50 ∧
     (failedTx txS 50).confirmedAt = none ∧
     (failedTx txS 50).timeoutOccurredAt = none ∧
     (timeoutTx txS 50).status = .Timeout ∧
     (timeoutTx txS 50).timeoutOccurredAt = some 50 ∧
     (timeoutTx txS 50).confirmedAt = none ∧
     (timeoutTx txS 50).failedAt = none ∧
     lookupKey (receiptConfirmState s8 "t1" txS okReceipt 50).pendingTxs "t1" = none ∧
     lookupKey (receiptConfirmState s8 "t1" txS okReceipt 50).redisTx "t1"
       = some (confirmedTx txS okReceipt 50) ∧
     (receiptConfirmState s8 "t1" txS okReceipt 50).txHistory = s8.txHistory ∧
     lookupKey (receiptFailState s8 "t1" txS 50).pendingTxs "t1" = none ∧
     lookupKey (receiptFailState s8 "t1" txS 50).redisTx "t1" = some (failedTx txS 50) ∧
     (receiptFailState s8 "t1" txS 50).txHistory = s8.txHistory ∧
     (timeoutState s8 "t1" txS 50).txHistory = s8.txHistory ∧
     monitor_step 300 50 (some (some okReceipt)) = .receipt okReceipt ∧
     (monitor_run s8 "t1" 300 [(50, some (some okReceipt)), (304, some (some okReceipt))]
        = .ok (receiptConfirmState s8 "t1" txS okReceipt 50, .gotReceipt) ∨
      monitor_run s8 "t1" 300 [(50, some (some okReceipt)), (304, some (some okReceipt))]
        = .ok (receiptFailState s8 "t1" txS 50, .gotReceipt)) ∧
     monitor_run s8 "t1" 300 [(301, some (some okReceipt)), (307, none)]
       = .ok (timeoutState s8 "t1" txS 301, .timedOut) ∧
     handle_receipt (receiptConfirmState s8 "t1" txS okReceipt 50) "t1" okReceipt 60
       = .error (.NotFound ("Transaction " ++ "t1" ++ " not found")) ∧
     handle_timeout (receiptConfirmState s8 "t1" txS okReceipt 50) "t1" 60
       = .error (.NotFound ("Transaction " ++ "t1" ++ " not found")) ∧
     handle_receipt (receiptFailState s8 "t1" txS 50) "t1" okReceipt 60
       = .error (.NotFound ("Transaction " ++ "t1" ++ " not found")) ∧
     handle_timeout (receiptFailState s8 "t1" txS 50) "t1" 60
       = .error (.NotFound ("Transaction " ++ "t1" ++ " not found"))) :=
  C8_amended_thm s8 "t1" txS okReceipt okReceipt 50 60 300 301 (some (some okReceipt))
    [(304, some (some okReceipt))] [(307, none)]
    (by decide) (by decide) (by decide) (by decide) rfl (by decide) (by decide)

/-- C9 counterexample: the claim says every transition to Confirmed emits a
TX_CONFIRMED event. In state s8 the event stream is empty; after the monitor
confirms the transaction the event stream is still empty: the confirmation
published no event at all. -/
theorem C9_cex :
    handle_receipt s8 "t1" okReceipt 50 = .ok (receiptConfirmState s8 "t1" txS okReceipt 50) ∧
    (confirmedTx txS okReceipt 50).status = TxStatus.Confirmed ∧
    s8.events = [] ∧
    (receiptConfirmState s8 "t1" txS okReceipt 50).events = [] := by decide

/-- C9 amended: only two lifecycle events are published: a successful
broadcast appends exactly one TX_SUBMITTED message (carrying tx_id, tx_hash,
chain_id and timestamp) and a timeout appends exactly one TX_TIMEOUT
message; the transitions to Confirmed and to Failed publish no event in
either receipt branch. -/
theorem C9_amended_thm (s : AppState) (chainId : Nat) (keyId : String) (txn : TxInput)
    (txId2 txHash : String) (attempt now2 : Nat) (cfg : Config)
    (txId : String) (tx : TxState) (r : TransactionReceipt) (now : Nat)
    (h : lookupKey s.pendingTxs txId = some tx) :
    (try_submit_success s chainId keyId txn txId2 txHash attempt now2 cfg).1.events
      = s.events ++ [mkSubmittedEvent txId2 txHash chainId now2] ∧
    (mkSubmittedEvent txId2 txHash chainId now2).event = "TX_SUBMITTED" ∧
    (mkSubmittedEvent txId2 txHash chainId now2).txId = txId2 ∧
    (mkSubmittedEvent txId2 txHash chainId now2).txHash = some txHash ∧
    (mkSubmittedEvent txId2 txHash chainId now2).chainId = chainId ∧
    (mkSubmittedEvent txId2 txHash chainId now2).timestamp = now2 ∧
    handle_timeout s txId now = .ok (timeoutState s txId tx now) ∧
    (timeoutState s txId tx now).events = s.events ++ [mkTimeoutEvent txId tx now] ∧
    (mkTimeoutEvent txId tx now).event = "TX_TIMEOUT" ∧
    (handle_receipt s txId r now = .ok (receiptConfirmState s txId tx r now) ∨
     handle_receipt s txId r now = .ok (receiptFailState s txId tx now)) ∧
    (receiptConfirmState s txId tx r now).events = s.events ∧
    (receiptFailState s txId tx now).events = s.events := by
  refine ⟨?_, ?_, ?_, ?_, ?_, ?_, ?_, ?_, ?_, ?_, ?_, ?_⟩
  · simp [try_submit_success]
  · simp [mkSubmittedEvent]
  · simp [mkSubmittedEvent]
  · simp [mkSubmittedEvent]
  · simp [mkSubmittedEvent]
  · simp [mkSubmittedEvent]
  · simp [handle_timeout, h]
  · simp [timeoutState]
  · simp [mkTimeoutEvent]
  · by_cases hr : r.status = some 1
    · left
      simp [handle_receipt, h, hr]
    · right
      simp [handle_receipt, h, hr]
  · simp [receiptConfirmState]
  · simp [receiptFailState]

/-- C9 witness: the amended theorem applied at state s8 with a fresh
submission on chain 1. -/
theorem C9_amended_w :
    ((try_submit_success s8 1 "k1" txn6 "t9" "0xh9" 0 40
        { maxPendingTx := 100, txTimeout := 300, confirmationBlocks := 1, maxRetryAttempts := 3 }).1.events
       = s8.events ++ [mkSubmittedEvent "t9" "0xh9" 1 40] ∧
     (mkSubmittedEvent "t9" "0xh9" 1 40).event = "TX_SUBMITTED" ∧
     (mkSubmittedEvent "t9" "0xh9" 1 40).txId = "t9" ∧
     (mkSubmittedEvent "t9" "0xh9" 1 40).txHash = some "0xh9" ∧
     (mkSubmittedEvent "t9" "0xh9" 1 40).chainId = 1 ∧
     (mkSubmittedEvent "t9" "0xh9" 1 40).timestamp = 40 ∧
     handle_timeout s8 "t1" 50 = .ok (timeoutState s8 "t1" txS 50) ∧
     (timeoutState s8 "t1" txS 50).events = s8.events ++ [mkTimeoutEvent "t1" txS 50] ∧
     (mkTimeoutEvent "t1" txS 50).event = "TX_TIMEOUT" ∧
     (handle_receipt s8 "t1" okReceipt 50 = .ok (receiptConfirmState s8 "t1" txS okReceipt 50) ∨
      handle_receipt s8 "t1" okReceipt 50 = .ok (receiptFailState s8 "t1" txS 50)) ∧
     (receiptConfirmState s8 "t1" txS okReceipt 50).events = s8.events ∧
     (receiptFailState s8 "t1" txS 50).events = s8.events) :=
  C9_amended_thm s8 1 "k1" txn6 "t9" "0xh9" 0 40
    { maxPendingTx := 100, txTimeout := 300, confirmationBlocks := 1, maxRetryAttempts := 3 }
    "t1" txS okReceipt 50 (by decide)

/-- C10 counterexample: the claim says the stored running average equals the
arithmetic mean of all recorded latencies. Confirming the three transactions
of s10 at times 11, 20 and 32 records latencies 1, 0 and 2; the stored
running average after the third confirmation is 0, while the arithmetic mean
of the three latencies is (1 + 0 + 2) / 3 = 1. -/
theorem C10_cex :
    ct_after s10 [("t1", 11), ("t2", 20), ("t3", 32)] "t1" = some 1 ∧
    ct_after s10 [("t1", 11), ("t2", 20), ("t3", 32)] "t2" = some 0 ∧
    ct_after s10 [("t1", 11), ("t2", 20), ("t3", 32)] "t3" = some 2 ∧
    avg_after s10 [("t1", 11), ("t2", 20), ("t3", 32)] = some 0 ∧
    (1 + 0 + 2) / 3 = 1 := by decide

/-- C10 amended: each confirmation records latency confirmed_at minus
submitted_at and folds it into the running average by the integer-division
recurrence avg = (avg * previous_count + latency) / (previous_count + 1),
which approximates but need not equal the arithmetic mean of all recorded
latencies. -/
theorem C10_amended_thm (s : AppState) (txId : String) (tx : TxState)
    (r : TransactionReceipt) (t0 now : Nat)
    (h : lookupKey s.pendingTxs txId = some tx)
    (hr : r.status = some 1) (hs : tx.submittedAt = some t0) :
    handle_receipt s txId r now = .ok (receiptConfirmState s txId tx r now) ∧
    (confirmedTx tx r now).submittedAt = some t0 ∧
    (confirmedTx tx r now).confirmedAt = some now ∧
    (confirmedTx tx r now).confirmationTime = some (now - t0) ∧
    lookupKey (receiptConfirmState s txId tx r now).redisTx txId = some (confirmedTx tx r now) ∧
    (receiptConfirmState s txId tx r now).metrics.totalConfirmed
      = s.metrics.totalConfirmed + 1 ∧
    (receiptConfirmState s txId tx r now).metrics.avgConfirmationTime
      = (s.metrics.avgConfirmationTime * s.metrics.totalConfirmed + (now - t0))
          / (s.metrics.totalConfirmed + 1) := by
  refine ⟨?_, ?_, ?_, ?_, ?_, ?_, ?_⟩
  · simp [handle_receipt, h, hr]
  · simp [confirmedTx, hs]
  · simp [confirmedTx]
  · simp [confirmedTx, confirmationTimeOf, hs]
  · simp [receiptConfirmState, lookupKey_insertKey_self]
  · simp [receiptConfirmState, update_metrics_confirmed]
  · simp [receiptConfirmState, update_metrics_confirmed, confirmationTimeOf, hs]

/-- C10 witness: the amended theorem applied at state s8, confirming at time
50 a transaction submitted at time 10. -/
theorem C10_amended_w :
    (handle_receipt s8 "t1" okReceipt 50 = .ok (receiptConfirmState s8 "t1" txS okReceipt 50) ∧
     (confirmedTx txS okReceipt 50).submittedAt = some 10 ∧
     (confirmedTx txS okReceipt 50).confirmedAt = some 50 ∧
     (confirmedTx txS okReceipt 50).confirmationTime = some (50 - 10) ∧
     lookupKey (receiptConfirmState s8 "t1" txS okReceipt 50).redisTx "t1"
       = some (confirmedTx txS okReceipt 50) ∧
     (receiptConfirmState s8 "t1" txS okReceipt 50).metrics.totalConfirmed
       = s8.metrics.totalConfirmed + 1 ∧
     (receiptConfirmState s8 "t1" txS okReceipt 50).metrics.avgConfirmationTime
       = (s8.metrics.avgConfirmationTime * s8.metrics.totalConfirmed + (50 - 10))
           / (s8.metrics.totalConfirmed + 1)) :=
  C10_amended_thm s8 "t1" txS okReceipt 10 50 (by decide) (by decide) (by decide)

end TxManager
